import Mathlib

set_option maxHeartbeats 1600000

/-!
Verification of the filesops library (recursive directory search, file-type
classification, permission string conversion) against its specification.

The TypeScript sources are shallowly embedded as Lean functions:

* The filesystem seen by one `search` call is a finite tree (`FSNode`).  A
  symbolic link carries its resolved target as a subtree; a node on which
  every system call fails (permission error, or a file deleted between
  enumeration and stat) is `FSNode.error`.
* `fs.stat` resolves symbolic links, so the `Stats` it produces never has
  `isSymbolicLink` set (only `lstat` reports links); `statNode` mirrors this.
  `fs.readdir` also resolves links and fails with ENOTDIR on plain files.
* Promise rejections (exceptions) are modelled with `Except JsError`; each
  try/catch of the source is translated at the same place.
* Strings are manipulated through their character lists; JavaScript
  `toLowerCase` is `Char.toLower` (the data here is ASCII, where they agree).
* The `RegExp` built by `matchesPattern` is interpreted by a small regular
  expression engine (Brzozowski derivatives) covering the constructs the
  glob translation can emit plus bare postfix operators; the `^...$`
  wrapping of the source is realised as whole-string matching.  Patterns
  using constructs outside this fragment are reported as a failed
  construction (`none`), which the traversal treats like the exception the
  source would catch.
* The recursion of `searchRecursive` is realised with a fuel argument;
  `search` supplies `sizeOf root` fuel, which strictly exceeds the height of
  the tree (every readdir child is a strict subterm, also through symbolic
  links), so the fuel never runs out and the fuel-free behaviour of the
  source is preserved.
-/

/-- Error token for a rejected filesystem promise. -/
inductive JsError where
  | ioError : JsError
deriving DecidableEq

/-- Metadata of a filesystem node, as delivered by stat. -/
structure Meta where
  size : Nat
  birthtime : Int
  mtime : Int
  atime : Int
deriving DecidableEq

/-- One filesystem tree as observed by a single traversal.  `error` is a
node on which every filesystem call fails; a symbolic link embeds its
resolved target (a link whose target cannot be resolved is
`symlink error`). -/
inductive FSNode where
  | file (meta : Meta)
  | dir (meta : Meta) (children : List (String × FSNode))
  | symlink (target : FSNode)
  | error

/-- Result of fs.stat.  `isSymbolicLink` is false on every stat result:
fs.stat resolves the final link, and only lstat results can report a
symbolic link.  The source calls stat, never lstat. -/
structure Stats where
  size : Nat
  isDirectory : Bool
  isFile : Bool
  isSymbolicLink : Bool
  birthtime : Int
  mtime : Int
  atime : Int
deriving DecidableEq

/-- The stat system call on a node: follows symbolic links, fails on an
inaccessible node (and hence on a broken link). -/
def statNode : FSNode → Except JsError Stats
  | .file m => .ok ⟨m.size, false, true, false, m.birthtime, m.mtime, m.atime⟩
  | .dir m _ => .ok ⟨m.size, true, false, false, m.birthtime, m.mtime, m.atime⟩
  | .symlink t => statNode t
  | .error => .error .ioError

/-- The readdir system call: lists the children of a directory, follows
symbolic links, fails with ENOTDIR on a file and on an inaccessible node.
The child nodes are carried next to the names so that the recursion can
reach them; the source only receives the names and re-derives the rest by
joining paths and calling stat. -/
def readdirNode : FSNode → Except JsError (List (String × FSNode))
  | .dir _ children => .ok children
  | .file _ => .error .ioError
  | .symlink t => readdirNode t
  | .error => .error .ioError

/-- FileInfo record of src/search.ts (interface FileInfo of types.ts). -/
structure FileInfo where
  path : String
  name : String
  extension : String
  size : Nat
  isDirectory : Bool
  isFile : Bool
  createdAt : Int
  modifiedAt : Int
  accessedAt : Int
deriving DecidableEq

/-- SearchOptions of types.ts.  Timestamps are integers; the pattern is the
glob-string variant (the pre-compiled RegExp variant of the source is not
exercised by any claim).  Absent optional fields are `none`; the three
boolean options are plain booleans because the source reads them with
JavaScript truthiness where false and absent coincide. -/
structure SearchOptions where
  pattern : Option String := none
  extensions : Option (List String) := none
  maxDepth : Option Nat := none
  includeHidden : Bool := false
  caseSensitive : Bool := false
  followSymlinks : Bool := false
  maxSize : Option Nat := none
  minSize : Option Nat := none
  modifiedSince : Option Int := none
  modifiedBefore : Option Int := none

/-- SearchResult of types.ts. -/
structure SearchResult where
  files : List FileInfo
  directories : List FileInfo
  totalFiles : Nat
  totalDirectories : Nat
  totalSize : Nat
deriving DecidableEq

instance {ε α : Type} [DecidableEq ε] [DecidableEq α] : DecidableEq (Except ε α) := fun a b =>
  match a, b with
  | .ok x, .ok y => decidable_of_iff (x = y) (by simp)
  | .error x, .error y => decidable_of_iff (x = y) (by simp)
  | .ok _, .error _ => isFalse (by intro h; cases h)
  | .error _, .ok _ => isFalse (by intro h; cases h)

/-- JavaScript toLowerCase, restricted to the ASCII range where
`Char.toLower` coincides with it. -/
def toLowerStr (s : String) : String := ⟨s.data.map Char.toLower⟩

/-- JavaScript `s.startsWith('.')`: the first character is a dot. -/
def headIsDot (s : String) : Bool :=
  match s.data with
  | c :: _ => c = '.'
  | [] => false

/-- Regular expressions as needed for the patterns `matchesPattern`
constructs: literals, the any-character dot, concatenation, alternation
and Kleene star. -/
inductive Regex where
  | fail : Regex
  | eps : Regex
  | lit (c : Char) : Regex
  | anyChar : Regex
  | seq (a b : Regex) : Regex
  | alt (a b : Regex) : Regex
  | star (a : Regex) : Regex

/-- Whether a regular expression accepts the empty string. -/
def nullable : Regex → Bool
  | .fail => false
  | .eps => true
  | .lit _ => false
  | .anyChar => false
  | .seq a b => nullable a && nullable b
  | .alt a b => nullable a || nullable b
  | .star _ => true

/-- Brzozowski derivative of a regular expression by one character. -/
def rderiv (r : Regex) (c : Char) : Regex :=
  match r with
  | .fail => .fail
  | .eps => .fail
  | .lit d => if d = c then .eps else .fail
  | .anyChar => .eps
  | .seq a b => if nullable a then .alt (.seq (rderiv a c) b) (rderiv b c) else .seq (rderiv a c) b
  | .alt a b => .alt (rderiv a c) (rderiv b c)
  | .star a => .seq (rderiv a c) (.star a)

/-- Whole-string regular expression matching (the source anchors the
pattern between the chars caret and dollar, which for this fragment is
exactly whole-string matching). -/
def rmatch (r : Regex) (s : List Char) : Bool := nullable (s.foldl rderiv r)

/-- Parse the regex string built by the glob translation into a `Regex`.
Handles literals, escaped characters, the dot, and the postfix operators
star, plus and question mark.  A quantifier with nothing to repeat or a
dangling backslash is invalid in JavaScript as well (SyntaxError); the
remaining rejected characters (groups, classes, anchors, alternation) are
outside the modelled fragment and no claim exercises them. -/
def parseAtoms : List Char → List Regex → Option (List Regex)
  | [], acc => some acc
  | c :: rest, acc =>
    if c = '\\' then
      match rest with
      | [] => none
      | d :: rest2 => parseAtoms rest2 (.lit d :: acc)
    else if c = '.' then parseAtoms rest (.anyChar :: acc)
    else if c = '*' then
      match acc with
      | [] => none
      | a :: tl => parseAtoms rest (.star a :: tl)
    else if c = '+' then
      match acc with
      | [] => none
      | a :: tl => parseAtoms rest (.seq a (.star a) :: tl)
    else if c = '?' then
      match acc with
      | [] => none
      | a :: tl => parseAtoms rest (.alt a .eps :: tl)
    else if c = '(' ∨ c = ')' ∨ c = '[' ∨ c = ']' ∨ c = '|' ∨ c = '^' ∨ c = '$' then none
    else parseAtoms rest (.lit c :: acc)

/-- Assemble the parsed atoms (accumulated in reverse) into one regex. -/
def parseRegex (s : List Char) : Option Regex :=
  (parseAtoms s []).map (fun atoms => atoms.reverse.foldl Regex.seq Regex.eps)

/-- One global single-character replacement, as the JavaScript
`str.replace(/c/g, rep)` calls of `matchesPattern` perform: a single
left-to-right pass, replacements are not rescanned. -/
def replaceChar (target : Char) (rep : List Char) : List Char → List Char
  | [] => []
  | c :: rest =>
    if c = target then rep ++ replaceChar target rep rest
    else c :: replaceChar target rep rest

/-- The glob-to-regex translation of `FileSearch.matchesPattern`:
escape the dot, then star to dot-star, then question mark to dot. -/
def globToRegexChars (p : List Char) : List Char :=
  replaceChar '?' ['.'] (replaceChar '*' ['.', '*'] (replaceChar '.' ['\\', '.'] p))

/-- FileSearch.matchesPattern for glob-string patterns.  `none` models the
only exception this function can raise (an invalid constructed RegExp) or
a pattern outside the modelled regex fragment; the caller catches it. -/
def matchesPattern (filename : String) (pattern : String) (caseSensitive : Bool) : Option Bool :=
  let targetName := if caseSensitive then filename else toLowerStr filename
  let targetPattern := if caseSensitive then pattern else toLowerStr pattern
  let regexPattern := globToRegexChars targetPattern.data
  match parseRegex regexPattern with
  | none => none
  | some r => some (rmatch r targetName.data)

/-- Scan state of the Node.js `path.extname` loop. -/
structure ExtScan where
  startDot : Int
  startPart : Nat
  endIdx : Int
  matchedSlash : Bool
  preDotState : Int
deriving DecidableEq

/-- The backwards character loop of Node.js posix `path.extname`,
transliterated; processes indices i, i-1, ..., 0 unless it breaks at a
path separator.  The five state variables of the source loop are threaded
as separate arguments. -/
def extnameGo (chars : List Char) (i : Nat) (startDot : Int) (startPart : Nat)
    (endIdx : Int) (matchedSlash : Bool) (preDotState : Int) : ExtScan :=
  let code := chars.getD i ' '
  if code = '/' then
    if matchedSlash then
      match i with
      | 0 => ⟨startDot, startPart, endIdx, matchedSlash, preDotState⟩
      | Nat.succ i2 => extnameGo chars i2 startDot startPart endIdx matchedSlash preDotState
    else ⟨startDot, i + 1, endIdx, matchedSlash, preDotState⟩
  else
    let endHit := endIdx = -1
    let endIdx2 := if endHit then (i : Int) + 1 else endIdx
    let matchedSlash2 := if endHit then false else matchedSlash
    let preDotState2 :=
      if code = '.' then
        (if startDot = -1 then preDotState else if preDotState ≠ 1 then 1 else preDotState)
      else if startDot ≠ -1 then (-1 : Int) else preDotState
    let startDot2 := if code = '.' then (if startDot = -1 then (i : Int) else startDot) else startDot
    match i with
    | 0 => ⟨startDot2, startPart, endIdx2, matchedSlash2, preDotState2⟩
    | Nat.succ i2 => extnameGo chars i2 startDot2 startPart endIdx2 matchedSlash2 preDotState2

/-- Node.js posix `path.extname`.  `path.parse(p).ext` computes the same
extension; for the slash-free names delivered by readdir the two coincide
on the spot. -/
def extname (s : String) : String :=
  let chars := s.data
  match chars.length with
  | 0 => ""
  | Nat.succ n =>
    let st := extnameGo chars n (-1) 0 (-1) true 0
    if st.startDot = -1 ∨ st.endIdx = -1 ∨ st.preDotState = 0 ∨
        (st.preDotState = 1 ∧ st.startDot = st.endIdx - 1 ∧ st.startDot = (st.startPart : Int) + 1) then
      ""
    else
      ⟨(chars.drop st.startDot.toNat).take (st.endIdx.toNat - st.startDot.toNat)⟩

/-- path.join for a directory and a slash-free entry name. -/
def joinPath (dir entry : String) : String := dir ++ "/" ++ entry

/-- FileSearch.getFileInfo: one stat call on the joined path.
`path.parse(itemPath).base` is the entry name and `.ext` is `extname` of
that name, because readdir names contain no separator. -/
def getFileInfo (itemPath : String) (name : String) (node : FSNode) : Except JsError FileInfo :=
  match statNode node with
  | .error e => .error e
  | .ok st => .ok {
      path := itemPath
      name := name
      extension := extname name
      size := st.size
      isDirectory := st.isDirectory
      isFile := st.isFile
      createdAt := st.birthtime
      modifiedAt := st.mtime
      accessedAt := st.atime }

/-- JavaScript truthiness of an optional number: absent and zero are both
falsy. -/
def jsTruthyNat (o : Option Nat) : Bool := o.getD 0 != 0

/-- FileSearch.matchesOptions.  The extension filter lowercases the
extension of the file, but stores each configured entry unchanged (the
toLowerCase of the source is applied only to the copy tested for a
leading dot).  Date options are Date objects in the source, truthy
whenever present. -/
def matchesOptions (fileInfo : FileInfo) (opts : SearchOptions) : Bool :=
  let extensionReject :=
    match opts.extensions with
    | some exts =>
      if exts.length > 0 then
        let ext := toLowerStr fileInfo.extension
        let normalized := exts.map (fun e => if headIsDot (toLowerStr e) then e else "." ++ e)
        !(normalized.contains ext)
      else false
    | none => false
  if extensionReject then false
  else if jsTruthyNat opts.maxSize ∧ fileInfo.size > opts.maxSize.getD 0 then false
  else if jsTruthyNat opts.minSize ∧ fileInfo.size < opts.minSize.getD 0 then false
  else if opts.modifiedSince.isSome ∧ fileInfo.modifiedAt < opts.modifiedSince.getD 0 then false
  else if opts.modifiedBefore.isSome ∧ fileInfo.modifiedAt > opts.modifiedBefore.getD 0 then false
  else true

/-- The `options.pattern || '*'` of the source: absent and the falsy empty
string both fall back to the match-all pattern. -/
def patternOrStar (opts : SearchOptions) : String :=
  match opts.pattern with
  | none => "*"
  | some p => if p = "" then "*" else p

/-- Body of the per-entry loop of FileSearch.searchRecursive.  Returns the
contribution of this entry to (files, directories); an empty contribution
is the `continue` of the source, taken for a hidden name, for any caught
exception (failed stat, invalid pattern) and for a filtered-out entry.
`recurse` is the recursive call for subdirectories. -/
def processItem (recurse : String → FSNode → Nat → List FileInfo × List FileInfo)
    (opts : SearchOptions) (currentPath : String) (item : String) (child : FSNode)
    (currentDepth : Nat) : List FileInfo × List FileInfo :=
  if ¬ opts.includeHidden ∧ headIsDot item then ([], [])
  else
    let itemPath := joinPath currentPath item
    match getFileInfo itemPath item child with
    | .error _ => ([], [])
    | .ok fileInfo =>
      match statNode child with
      | .error _ => ([], [])
      | .ok st =>
        if ¬ opts.followSymlinks ∧ st.isSymbolicLink then ([], [])
        else if fileInfo.isDirectory then
          match matchesPattern fileInfo.name (patternOrStar opts) opts.caseSensitive with
          | none => ([], [])
          | some matched =>
            let dirsHere := if matched then [fileInfo] else []
            let sub := recurse itemPath child (currentDepth + 1)
            (sub.1, dirsHere ++ sub.2)
        else if fileInfo.isFile then
          match matchesPattern fileInfo.name (patternOrStar opts) opts.caseSensitive with
          | none => ([], [])
          | some matched =>
            if matched ∧ matchesOptions fileInfo opts then ([fileInfo], []) else ([], [])
        else ([], [])

/-- FileSearch.searchRecursive.  Returns early with nothing when the depth
bound is exceeded, and swallows a failing readdir: that includes the root
call, whose failure therefore also produces an empty result rather than a
rejection.  The fuel only realises the recursion (see the header). -/
def searchRecursive (fuel : Nat) (opts : SearchOptions) (currentPath : String)
    (node : FSNode) (currentDepth : Nat) : List FileInfo × List FileInfo :=
  match fuel with
  | 0 => ([], [])
  | Nat.succ fuel2 =>
    if (match opts.maxDepth with
        | some md => decide (currentDepth > md)
        | none => false) then ([], [])
    else
      match readdirNode node with
      | .error _ => ([], [])
      | .ok items =>
        items.foldr
          (fun it acc =>
            let contrib := processItem (fun p c d => searchRecursive fuel2 opts p c d)
              opts currentPath it.1 it.2 currentDepth
            (contrib.1 ++ acc.1, contrib.2 ++ acc.2))
          ([], [])

/-- Weight of a filesystem tree: strictly larger than the weight of every
node reachable by the traversal below it (readdir children, also through
symbolic links), hence an upper bound on the recursion depth of
`searchRecursive` and sufficient fuel. -/
def nodeWeight : FSNode → Nat
  | .file _ => 1
  | .error => 1
  | .symlink t => nodeWeight t + 1
  | .dir _ children => go children + 1
where
  /-- Sum of the weights of a list of children. -/
  go : List (String × FSNode) → Nat
    | [] => 0
    | c :: rest => nodeWeight c.2 + go rest

/-- FileSearch.search: runs the recursion at depth 0 and assembles the
totals from the accumulated lists.  The only statement after the awaited
recursion is pure, so the returned promise always resolves. -/
def search (rootPath : String) (root : FSNode) (opts : SearchOptions) : Except JsError SearchResult :=
  let pair := searchRecursive (nodeWeight root) opts rootPath root 0
  Except.ok {
    files := pair.1
    directories := pair.2
    totalFiles := pair.1.length
    totalDirectories := pair.2.length
    totalSize := pair.1.foldl (fun sum f => sum + f.size) 0 }

/-- FileTypeDetector.mimeTypes lookup table. -/
def mimeTypes : List (String × String) := [
  (".txt", "text/plain"), (".md", "text/markdown"), (".json", "application/json"),
  (".xml", "application/xml"), (".html", "text/html"), (".htm", "text/html"),
  (".css", "text/css"), (".js", "application/javascript"), (".ts", "application/typescript"),
  (".jsx", "application/javascript"), (".tsx", "application/typescript"),
  (".py", "text/x-python"), (".java", "text/x-java-source"), (".cpp", "text/x-c++src"),
  (".c", "text/x-csrc"), (".h", "text/x-chdr"), (".php", "application/x-httpd-php"),
  (".rb", "application/x-ruby"), (".go", "text/x-go"), (".rs", "text/x-rust"),
  (".sh", "application/x-sh"), (".bat", "application/x-bat"), (".ps1", "application/x-powershell"),
  (".jpg", "image/jpeg"), (".jpeg", "image/jpeg"), (".png", "image/png"),
  (".gif", "image/gif"), (".bmp", "image/bmp"), (".svg", "image/svg+xml"),
  (".webp", "image/webp"), (".ico", "image/x-icon"), (".tiff", "image/tiff"), (".tif", "image/tiff"),
  (".mp3", "audio/mpeg"), (".wav", "audio/wav"), (".flac", "audio/flac"),
  (".aac", "audio/aac"), (".ogg", "audio/ogg"), (".m4a", "audio/mp4"),
  (".mp4", "video/mp4"), (".avi", "video/x-msvideo"), (".mov", "video/quicktime"),
  (".wmv", "video/x-ms-wmv"), (".flv", "video/x-flv"), (".webm", "video/webm"),
  (".mkv", "video/x-matroska"),
  (".zip", "application/zip"), (".rar", "application/vnd.rar"), (".tar", "application/x-tar"),
  (".gz", "application/gzip"), (".7z", "application/x-7z-compressed"), (".bz2", "application/x-bzip2"),
  (".pdf", "application/pdf"), (".doc", "application/msword"),
  (".docx", "application/vnd.openxmlformats-officedocument.wordprocessingml.document"),
  (".xls", "application/vnd.ms-excel"),
  (".xlsx", "application/vnd.openxmlformats-officedocument.spreadsheetml.sheet"),
  (".ppt", "application/vnd.ms-powerpoint"),
  (".pptx", "application/vnd.openxmlformats-officedocument.presentationml.presentation"),
  (".exe", "application/x-msdownload"), (".msi", "application/x-msi"),
  (".deb", "application/vnd.debian.binary-package"), (".rpm", "application/x-rpm"),
  (".dmg", "application/x-apple-diskimage"), (".app", "application/x-apple-app")]

/-- FileTypeDetector.categories lookup table. -/
def categories : List (String × String) := [
  (".txt", "Text"), (".md", "Documentation"), (".json", "Data"), (".xml", "Data"),
  (".html", "Web"), (".htm", "Web"), (".css", "Web"),
  (".js", "Code"), (".ts", "Code"), (".jsx", "Code"), (".tsx", "Code"),
  (".py", "Code"), (".java", "Code"), (".cpp", "Code"), (".c", "Code"),
  (".h", "Code"), (".php", "Code"), (".rb", "Code"), (".go", "Code"), (".rs", "Code"),
  (".sh", "Script"), (".bat", "Script"), (".ps1", "Script"),
  (".jpg", "Image"), (".jpeg", "Image"), (".png", "Image"), (".gif", "Image"),
  (".bmp", "Image"), (".svg", "Image"), (".webp", "Image"), (".ico", "Image"),
  (".tiff", "Image"), (".tif", "Image"),
  (".mp3", "Audio"), (".wav", "Audio"), (".flac", "Audio"), (".aac", "Audio"),
  (".ogg", "Audio"), (".m4a", "Audio"),
  (".mp4", "Video"), (".avi", "Video"), (".mov", "Video"), (".wmv", "Video"),
  (".flv", "Video"), (".webm", "Video"), (".mkv", "Video"),
  (".zip", "Archive"), (".rar", "Archive"), (".tar", "Archive"), (".gz", "Archive"),
  (".7z", "Archive"), (".bz2", "Archive"),
  (".pdf", "Document"), (".doc", "Document"), (".docx", "Document"), (".xls", "Document"),
  (".xlsx", "Document"), (".ppt", "Document"), (".pptx", "Document"),
  (".exe", "Executable"), (".msi", "Executable"), (".deb", "Executable"),
  (".rpm", "Executable"), (".dmg", "Executable"), (".app", "Executable")]

/-- FileTypeDetector.descriptions lookup table. -/
def descriptions : List (String × String) := [
  (".txt", "Plain text file"), (".md", "Markdown document"), (".json", "JSON data file"),
  (".xml", "XML document"), (".html", "HTML web page"), (".htm", "HTML web page"),
  (".css", "CSS stylesheet"), (".js", "JavaScript file"), (".ts", "TypeScript file"),
  (".jsx", "React JavaScript file"), (".tsx", "React TypeScript file"),
  (".py", "Python script"), (".java", "Java source file"), (".cpp", "C++ source file"),
  (".c", "C source file"), (".h", "C/C++ header file"), (".php", "PHP script"),
  (".rb", "Ruby script"), (".go", "Go source file"), (".rs", "Rust source file"),
  (".sh", "Shell script"), (".bat", "Batch file"), (".ps1", "PowerShell script"),
  (".jpg", "JPEG image"), (".jpeg", "JPEG image"), (".png", "PNG image"),
  (".gif", "GIF image"), (".bmp", "Bitmap image"), (".svg", "SVG vector image"),
  (".webp", "WebP image"), (".ico", "Icon file"), (".tiff", "TIFF image"), (".tif", "TIFF image"),
  (".mp3", "MP3 audio file"), (".wav", "WAV audio file"), (".flac", "FLAC audio file"),
  (".aac", "AAC audio file"), (".ogg", "OGG audio file"), (".m4a", "M4A audio file"),
  (".mp4", "MP4 video file"), (".avi", "AVI video file"), (".mov", "QuickTime video"),
  (".wmv", "Windows Media video"), (".flv", "Flash video"), (".webm", "WebM video"),
  (".mkv", "Matroska video"),
  (".zip", "ZIP archive"), (".rar", "RAR archive"), (".tar", "TAR archive"),
  (".gz", "Gzip compressed file"), (".7z", "7-Zip archive"), (".bz2", "Bzip2 compressed file"),
  (".pdf", "PDF document"), (".doc", "Word document"), (".docx", "Word document"),
  (".xls", "Excel spreadsheet"), (".xlsx", "Excel spreadsheet"),
  (".ppt", "PowerPoint presentation"), (".pptx", "PowerPoint presentation"),
  (".exe", "Windows executable"), (".msi", "Windows installer"), (".deb", "Debian package"),
  (".rpm", "RPM package"), (".dmg", "macOS disk image"), (".app", "macOS application")]

/-- FileTypeDetector.binaryExtensions set. -/
def binaryExtensions : List String := [
  ".exe", ".dll", ".so", ".dylib", ".bin", ".dat",
  ".jpg", ".jpeg", ".png", ".gif", ".bmp", ".ico", ".tiff", ".tif", ".webp",
  ".mp3", ".wav", ".flac", ".aac", ".ogg", ".m4a",
  ".mp4", ".avi", ".mov", ".wmv", ".flv", ".webm", ".mkv",
  ".zip", ".rar", ".tar", ".gz", ".7z", ".bz2",
  ".pdf", ".doc", ".docx", ".xls", ".xlsx", ".ppt", ".pptx",
  ".msi", ".deb", ".rpm", ".dmg", ".app"]

/-- FileTypeDetector.executableExtensions set. -/
def executableExtensions : List String := [
  ".exe", ".msi", ".deb", ".rpm", ".dmg", ".app", ".sh", ".bat", ".ps1", ".com", ".cmd"]

/-- JavaScript object property lookup on a string-keyed table. -/
def lookupTable (tbl : List (String × String)) (key : String) : Option String :=
  (tbl.find? (fun kv => kv.1 == key)).map (fun kv => kv.2)

/-- FileTypeInfo of types.ts. -/
structure FileTypeInfo where
  extension : String
  mimeType : String
  category : String
  description : String
  isBinary : Bool
  isText : Bool
  isImage : Bool
  isVideo : Bool
  isAudio : Bool
  isArchive : Bool
  isExecutable : Bool
deriving DecidableEq

/-- FileTypeDetector.detectFromPath: pure extension-based classification. -/
def detectFromPath (filePath : String) : FileTypeInfo :=
  let ext := toLowerStr (extname filePath)
  { extension := ext
    mimeType := (lookupTable mimeTypes ext).getD "application/octet-stream"
    category := (lookupTable categories ext).getD "Unknown"
    description := (lookupTable descriptions ext).getD "Unknown file type"
    isBinary := binaryExtensions.contains ext
    isText := !(binaryExtensions.contains ext)
    isImage := lookupTable categories ext == some "Image"
    isVideo := lookupTable categories ext == some "Video"
    isAudio := lookupTable categories ext == some "Audio"
    isArchive := lookupTable categories ext == some "Archive"
    isExecutable := executableExtensions.contains ext }

/-- Classification carried by one entry of the magic-number table. -/
structure MagicInfo where
  mimeType : String
  category : String
  description : String
  isBinary : Bool
deriving DecidableEq

/-- Uppercase hexadecimal digit. -/
def hexDigitChar (n : Nat) : Char := "0123456789ABCDEF".data.getD n '0'

/-- Two uppercase hexadecimal digits of one byte, as
`buffer.toString('hex').toUpperCase()` renders it. -/
def hexByte (b : Nat) : List Char := [hexDigitChar (b % 256 / 16), hexDigitChar (b % 16)]

/-- Uppercase hexadecimal rendering of a byte sequence. -/
def hexChars : List Nat → List Char
  | [] => []
  | b :: rest => hexByte b ++ hexChars rest

/-- JavaScript `hex.startsWith(p)` on the character sequence. -/
def hexStarts (hex : List Char) (p : String) : Bool := p.data.isPrefixOf hex

/-- JavaScript `hex.includes(p)`: the characters of p occur contiguously
somewhere in hex (also at odd offsets, straddling byte boundaries, exactly
as the substring search of the source does). -/
def hexIncludes (hex : List Char) (p : String) : Bool :=
  match hex with
  | [] => p.data.isEmpty
  | _ :: rest => p.data.isPrefixOf hex || hexIncludes rest p

/-- FileTypeDetector.detectMagicNumbers: buffers of fewer than 4 bytes
never match; otherwise the first 16 bytes are rendered as uppercase hex
and tested against the signature table in source order. -/
def detectMagicNumbers (buffer : List Nat) : Option MagicInfo :=
  if buffer.length < 4 then none
  else
    let hex := hexChars (buffer.take 16)
    if hexStarts hex "FFD8FF" then some ⟨"image/jpeg", "Image", "JPEG image", true⟩
    else if hexStarts hex "89504E47" then some ⟨"image/png", "Image", "PNG image", true⟩
    else if hexStarts hex "47494638" then some ⟨"image/gif", "Image", "GIF image", true⟩
    else if hexStarts hex "424D" then some ⟨"image/bmp", "Image", "BMP image", true⟩
    else if hexStarts hex "52494646" ∧ hexIncludes hex "57454250" then
      some ⟨"image/webp", "Image", "WebP image", true⟩
    else if hexStarts hex "504B0304" ∨ hexStarts hex "504B0506" ∨ hexStarts hex "504B0708" then
      some ⟨"application/zip", "Archive", "ZIP archive", true⟩
    else if hexStarts hex "526172211A07" then
      some ⟨"application/vnd.rar", "Archive", "RAR archive", true⟩
    else if hexStarts hex "377ABCAF271C" then
      some ⟨"application/x-7z-compressed", "Archive", "7-Zip archive", true⟩
    else if hexStarts hex "1F8B" then
      some ⟨"application/gzip", "Archive", "Gzip compressed file", true⟩
    else if hexStarts hex "25504446" then
      some ⟨"application/pdf", "Document", "PDF document", true⟩
    else if hexStarts hex "4D5A" then
      some ⟨"application/x-msdownload", "Executable", "Windows executable", true⟩
    else if hexStarts hex "494433" ∨ hexStarts hex "FFFB" ∨ hexStarts hex "FFF3" ∨ hexStarts hex "FFF2" then
      some ⟨"audio/mpeg", "Audio", "MP3 audio file", true⟩
    else if hexStarts hex "52494646" ∧ hexIncludes hex "57415645" then
      some ⟨"audio/wav", "Audio", "WAV audio file", true⟩
    else if hexIncludes hex "667479706D703432" ∨ hexIncludes hex "667479706D703431" then
      some ⟨"video/mp4", "Video", "MP4 video file", true⟩
    else if hexStarts hex "52494646" ∧ hexIncludes hex "415649" then
      some ⟨"video/x-msvideo", "Video", "AVI video file", true⟩
    else none

/-- FileTypeDetector.detectFromContent.  The `content` argument is the
outcome of reading the file; a rejected read falls back silently to the
extension-based classification.  On a signature match every derived field
is replaced, but the extension (and isExecutable, which the source does
not rewrite) stay those of the path-based result. -/
def detectFromContent (filePath : String) (content : Except JsError (List Nat)) : FileTypeInfo :=
  let baseInfo := detectFromPath filePath
  match content with
  | .error _ => baseInfo
  | .ok buffer =>
    match detectMagicNumbers buffer with
    | none => baseInfo
    | some magicInfo =>
      { baseInfo with
        mimeType := magicInfo.mimeType
        category := magicInfo.category
        description := magicInfo.description
        isBinary := magicInfo.isBinary
        isText := !magicInfo.isBinary
        isImage := magicInfo.category == "Image"
        isVideo := magicInfo.category == "Video"
        isAudio := magicInfo.category == "Audio"
        isArchive := magicInfo.category == "Archive" }

/-- The comparison `nonPrintable / sample.length < 0.3` of the source,
over the naturals.  For an empty sample the division yields NaN and every
NaN comparison is false.  For 1 <= length <= 8192 the double comparison
agrees with the exact rational one stated here: the closest fraction with
denominator at most 8192 below 3/10 is farther from 3/10 than the
rounding error of the double literal 0.3, so no representable ratio falls
in the gap. -/
def jsRatioLtPoint3 (num den : Nat) : Bool :=
  if den = 0 then false else decide (10 * num < 3 * den)

/-- FileTypeDetector.isTextFile.  The content argument is the outcome of
reading the file as a binary string (one character per byte); a rejected
read returns false.  Samples the first 8192 bytes and counts control
bytes other than tab, newline and carriage return. -/
def isTextFile (content : Except JsError (List Nat)) : Bool :=
  match content with
  | .error _ => false
  | .ok buffer =>
    let sample := buffer.take 8192
    let nonPrintable := sample.countP (fun c => decide (c < 32 ∧ c ≠ 9 ∧ c ≠ 10 ∧ c ≠ 13))
    jsRatioLtPoint3 nonPrintable sample.length

/-- The character class `[0-7]` of the octal permission format check. -/
def isOctalDigitChar (c : Char) : Bool :=
  c == '0' || c == '1' || c == '2' || c == '3' || c == '4' || c == '5' || c == '6' || c == '7'

/-- The regex `[0-7]{3}` anchored, of PermissionChecker.octalToSymbolic. -/
def validOctalChars : List Char → Bool
  | [a, b, c] => isOctalDigitChar a && isOctalDigitChar b && isOctalDigitChar c
  | _ => false

/-- JavaScript `Number(c)` for a decimal digit character. -/
def charDigit (c : Char) : Nat := c.toNat - '0'.toNat

/-- One octal digit to its rwx group (the bit tests of the source). -/
def rwxOfDigit (d : Nat) : String :=
  (if d.land 4 != 0 then "r" else "-") ++ (if d.land 2 != 0 then "w" else "-") ++
    (if d.land 1 != 0 then "x" else "-")

/-- PermissionChecker.octalToSymbolic; `none` is the thrown
invalid-format rejection. -/
def octalToSymbolic (octal : String) : Option String :=
  if validOctalChars octal.data then
    some (String.join (octal.data.map (fun c => rwxOfDigit (charDigit c))))
  else none

/-- The anchored regex `[r-][w-][x-]` three times, of
PermissionChecker.symbolicToOctal. -/
def validSymbolicChars : List Char → Bool
  | [a, b, c, d, e, f, g, h, i] =>
    (a == 'r' || a == '-') && (b == 'w' || b == '-') && (c == 'x' || c == '-') &&
    (d == 'r' || d == '-') && (e == 'w' || e == '-') && (f == 'x' || f == '-') &&
    (g == 'r' || g == '-') && (h == 'w' || h == '-') && (i == 'x' || i == '-')
  | _ => false

/-- Value of one rwx group (the three position tests of the source). -/
def groupValue (g : List Char) : Nat :=
  (if g.getD 0 ' ' == 'r' then 4 else 0) + (if g.getD 1 ' ' == 'w' then 2 else 0) +
    (if g.getD 2 ' ' == 'x' then 1 else 0)

/-- PermissionChecker.symbolicToOctal; `none` is the thrown
invalid-format rejection.  The three groups are the slices (0,3), (3,6)
and (6,9) of the argument. -/
def symbolicToOctal (symbolic : String) : Option String :=
  if validSymbolicChars symbolic.data then
    let cs := symbolic.data
    let groups := [cs.take 3, (cs.drop 3).take 3, (cs.drop 6).take 3]
    some (String.join (groups.map (fun g => toString (groupValue g))))
  else none

/-! Helper lemmas shared by the claim theorems. -/

/-- Folding the size accumulation of `search` equals the sum of the sizes. -/
theorem foldl_add_size (l : List FileInfo) (n : Nat) :
    l.foldl (fun sum f => sum + f.size) n = n + (l.map (fun f => f.size)).sum := by
  induction l generalizing n with
  | nil => simp
  | cons a t ih => simp [ih, Nat.add_assoc]

/-- A character list is a prefix of itself extended by anything. -/
theorem isPrefixOf_append_self (l t : List Char) : l.isPrefixOf (l ++ t) = true := by
  induction l with
  | nil => simp [List.isPrefixOf]
  | cons a l ih => simp [List.isPrefixOf, ih]

/-- The magic-number table classifies any buffer that starts with the four
PNG signature bytes as PNG, whatever follows. -/
theorem detectMagicNumbers_png (rest : List Nat) :
    detectMagicNumbers (0x89 :: 0x50 :: 0x4E :: 0x47 :: rest) =
      some ⟨"image/png", "Image", "PNG image", true⟩ := by
  unfold detectMagicNumbers
  rw [if_neg (by simp)]
  have htake : List.take 16 (0x89 :: 0x50 :: 0x4E :: 0x47 :: rest) =
      0x89 :: 0x50 :: 0x4E :: 0x47 :: List.take 12 rest := rfl
  have hhex : hexChars (0x89 :: 0x50 :: 0x4E :: 0x47 :: List.take 12 rest) =
      '8' :: '9' :: '5' :: '0' :: '4' :: 'E' :: '4' :: '7' :: hexChars (List.take 12 rest) := rfl
  have hne : (('F' : Char) == '8') = false := by decide
  have hjpeg : hexStarts ('8' :: '9' :: '5' :: '0' :: '4' :: 'E' :: '4' :: '7' ::
      hexChars (List.take 12 rest)) "FFD8FF" = false := by
    have hd : ("FFD8FF" : String).data = ['F', 'F', 'D', '8', 'F', 'F'] := by decide
    simp [hexStarts, hd, List.isPrefixOf, hne]
  have hpng : hexStarts ('8' :: '9' :: '5' :: '0' :: '4' :: 'E' :: '4' :: '7' ::
      hexChars (List.take 12 rest)) "89504E47" = true := by
    have hd : ("89504E47" : String).data = ['8', '9', '5', '0', '4', 'E', '4', '7'] := by decide
    simp only [hexStarts, hd]
    exact isPrefixOf_append_self ['8', '9', '5', '0', '4', 'E', '4', '7'] _
  simp only [htake, hhex, hjpeg, hpng]
  simp

/-- Exhaustive check of the octal-to-symbolic round trip on all 512 octal
digit triples. -/
theorem octal_roundtrip_enum :
    (['0', '1', '2', '3', '4', '5', '6', '7'].all fun c1 =>
      ['0', '1', '2', '3', '4', '5', '6', '7'].all fun c2 =>
        ['0', '1', '2', '3', '4', '5', '6', '7'].all fun c3 =>
          decide ((octalToSymbolic ⟨[c1, c2, c3]⟩).bind symbolicToOctal =
            some ⟨[c1, c2, c3]⟩)) = true := by decide

/-- Exhaustive check of the symbolic-to-octal round trip on all 512 valid
rwx strings. -/
theorem symbolic_roundtrip_enum :
    (['r', '-'].all fun c1 => ['w', '-'].all fun c2 => ['x', '-'].all fun c3 =>
      ['r', '-'].all fun c4 => ['w', '-'].all fun c5 => ['x', '-'].all fun c6 =>
        ['r', '-'].all fun c7 => ['w', '-'].all fun c8 => ['x', '-'].all fun c9 =>
          decide ((symbolicToOctal ⟨[c1, c2, c3, c4, c5, c6, c7, c8, c9]⟩).bind octalToSymbolic =
            some ⟨[c1, c2, c3, c4, c5, c6, c7, c8, c9]⟩)) = true := by decide

/-- A character accepted by the class check of `[0-7]` is one of the eight
octal digits. -/
theorem isOctalDigitChar_mem {c : Char} (h : isOctalDigitChar c = true) :
    c ∈ ['0', '1', '2', '3', '4', '5', '6', '7'] := by
  simp only [isOctalDigitChar, Bool.or_eq_true, beq_iff_eq] at h
  rcases h with (((((((rfl | rfl) | rfl) | rfl) | rfl) | rfl) | rfl) | rfl) <;> simp

/-- A character accepted by a two-letter class check is one of the two. -/
theorem mem_pair_of_or {c x : Char} (h : (c == x || c == '-') = true) : c ∈ [x, '-'] := by
  simp only [Bool.or_eq_true, beq_iff_eq] at h
  rcases h with rfl | rfl <;> simp

/-! Claim theorems. -/

/-- Claim C1, counterexample: a root on which readdir fails does not abort
the call; `search` resolves normally with an empty SearchResult. -/
theorem search_unreadableRoot_returns_ok :
    search "root" FSNode.error {} = Except.ok ⟨[], [], 0, 0, 0⟩ := by decide

/-- Claim C1, amended: `search` never fails.  An unreadable root is
swallowed by the same catch as any per-entry read failure and yields a
normal empty SearchResult; per-entry failures below the root omit only
that entry and its subtree, as the readable sibling of an unreadable
child shows. -/
theorem search_rootFailure_swallowed :
    (∀ rootPath root opts, (search rootPath root opts).isOk = true) ∧
    (∀ rootPath opts, search rootPath FSNode.error opts = Except.ok ⟨[], [], 0, 0, 0⟩) ∧
    ((search "root" (FSNode.dir ⟨0, 0, 0, 0⟩
        [("bad", FSNode.error), ("good.txt", FSNode.file ⟨7, 0, 0, 0⟩)]) {}).map
        (fun r => (r.files.map (fun f => f.name), r.totalFiles, r.totalSize)) =
      Except.ok (["good.txt"], 1, 7)) := by
  refine ⟨fun rootPath root opts => rfl, fun rootPath opts => ?_, by decide⟩
  show Except.ok _ = _
  rw [Except.ok.injEq]
  have h : searchRecursive (nodeWeight FSNode.error) opts rootPath FSNode.error 0 = ([], []) := by
    show searchRecursive 1 opts rootPath FSNode.error 0 = ([], [])
    unfold searchRecursive
    cases hmd : opts.maxDepth with
    | none => rfl
    | some md => simp [hmd, readdirNode]
  simp [h]

/-- Claim C2 (code bug): with `followSymlinks` unset, a symbolic link to a
directory is not skipped.  The source consults `isSymbolicLink` on an
fs.stat result, which has already resolved the link and never reports one,
so the link is recorded among the directories and its target subtree is
traversed: the nested file is recorded as well. -/
theorem search_symlink_not_skipped :
    (search "root" (FSNode.dir ⟨0, 0, 0, 0⟩
        [("link", FSNode.symlink (FSNode.dir ⟨0, 0, 0, 0⟩
          [("b.txt", FSNode.file ⟨10, 0, 0, 0⟩)]))]) {}).map
      (fun r => (r.files.map (fun f => f.name), r.directories.map (fun f => f.name),
        r.totalFiles, r.totalDirectories)) =
    Except.ok (["b.txt"], ["link"], 1, 1) := by decide

/-- Claim C3 (code bug): the extension filter lowercases only the
extension of the file, never the configured entries, so a configured
uppercase extension such as .JS matches no file at all (not even a file
named a.JS), while a configured lowercase .js does match a.JS.
Case-insensitivity therefore holds in one direction only. -/
theorem extension_filter_uppercase_config_never_matches :
    matchesOptions ⟨"a.js", "a.js", ".js", 1, false, true, 0, 0, 0⟩
      { extensions := some [".JS"] } = false ∧
    matchesOptions ⟨"a.JS", "a.JS", ".JS", 1, false, true, 0, 0, 0⟩
      { extensions := some [".js"] } = true ∧
    matchesOptions ⟨"a.JS", "a.JS", ".JS", 1, false, true, 0, 0, 0⟩
      { extensions := some [".JS"] } = false := by decide

/-- Claim C4, counterexample: the glob translation leaves the plus sign
unescaped, so it keeps its regex meaning.  The translated pattern a+
matches the name aa, which contains no plus sign, and does not even match
the literal name a+ itself. -/
theorem matchesPattern_plus_counterexample :
    matchesPattern "aa" "a+" false = some true ∧
    matchesPattern "a+" "a+" false = some false := by decide

/-- Claim C4, amended: the translation maps star to dot-star (any-length
wildcard) and the question mark to dot (single-character wildcard), but
escapes only the dot; every other character, the remaining regex
metacharacters included, is copied through unchanged and keeps its regex
meaning. -/
theorem globToRegex_escapes_only_dot :
    (∀ c : Char, c ≠ '.' → c ≠ '*' → c ≠ '?' → globToRegexChars [c] = [c]) ∧
    globToRegexChars ['*'] = ['.', '*'] ∧ globToRegexChars ['?'] = ['.'] ∧
    globToRegexChars ['.'] = ['\\', '.'] ∧
    matchesPattern "abc" "a*" false = some true ∧
    matchesPattern "ab" "a?" false = some true ∧
    matchesPattern "abc" "a?" false = some false := by
  refine ⟨?_, by decide, by decide, by decide, by decide, by decide, by decide⟩
  intro c h1 h2 h3
  simp [globToRegexChars, replaceChar, h1, h2, h3]

/-- Witness for the amended claim C4 at the concrete character plus. -/
theorem globToRegex_escapes_only_dot_witness :
    globToRegexChars ['+'] = ['+'] :=
  globToRegex_escapes_only_dot.1 '+' (by decide) (by decide) (by decide)

/-- Claim C5: with maxDepth 0 the search records exactly the immediate
children of the root (the root file, and the subdirectory among the
directories) and not the nested file; in general a recursion level at
depth d beyond the configured maxDepth processes nothing, so children of a
directory at depth d are processed only when d is at most maxDepth and
recursion below a child directory happens only when d is below
maxDepth. -/
theorem search_maxDepth_zero_semantics :
    ((search "root" (FSNode.dir ⟨0, 0, 0, 0⟩
        [("a.txt", FSNode.file ⟨5, 0, 0, 0⟩),
         ("sub", FSNode.dir ⟨0, 0, 0, 0⟩ [("b.txt", FSNode.file ⟨10, 0, 0, 0⟩)])])
        { maxDepth := some 0 }).map
        (fun r => (r.files.map (fun f => f.name), r.directories.map (fun f => f.name))) =
      Except.ok (["a.txt"], ["sub"])) ∧
    (∀ fuel opts currentPath node currentDepth md,
      opts.maxDepth = some md → md < currentDepth →
      searchRecursive fuel opts currentPath node currentDepth = ([], [])) := by
  constructor
  · decide
  · intro fuel opts currentPath node currentDepth md hmd hlt
    cases fuel with
    | zero => rfl
    | succ f =>
      unfold searchRecursive
      simp [hmd, hlt]

/-- Witness for claim C5 at concrete inputs: depth 1 with maxDepth 0. -/
theorem search_maxDepth_zero_semantics_witness :
    searchRecursive 5 { maxDepth := some 0 } "p" FSNode.error 1 = ([], []) :=
  search_maxDepth_zero_semantics.2 5 { maxDepth := some 0 } "p" FSNode.error 1 0 rfl (by decide)

/-- Claim C6: every SearchResult built by `search` satisfies the three
aggregate invariants: totalFiles is the length of files, totalDirectories
is the length of directories, and totalSize is the sum of the sizes of
the files. -/
theorem search_totals_invariant :
    ∀ rootPath root opts r, search rootPath root opts = Except.ok r →
      r.totalFiles = r.files.length ∧ r.totalDirectories = r.directories.length ∧
      r.totalSize = (r.files.map (fun f => f.size)).sum := by
  intro rootPath root opts r h
  unfold search at h
  rw [Except.ok.injEq] at h
  subst h
  exact ⟨rfl, rfl, by simp [foldl_add_size]⟩

/-- Witness for claim C6 on a one-file tree. -/
theorem search_totals_invariant_witness :
    let r0 : SearchResult :=
      ⟨[⟨"r/a.txt", "a.txt", ".txt", 5, false, true, 0, 0, 0⟩], [], 1, 0, 5⟩
    r0.totalFiles = r0.files.length ∧ r0.totalDirectories = r0.directories.length ∧
      r0.totalSize = (r0.files.map (fun f => f.size)).sum :=
  search_totals_invariant "r" (FSNode.dir ⟨0, 0, 0, 0⟩ [("a.txt", FSNode.file ⟨5, 0, 0, 0⟩)]) {}
    ⟨[⟨"r/a.txt", "a.txt", ".txt", 5, false, true, 0, 0, 0⟩], [], 1, 0, 5⟩ (by decide)

/-- Claim C7: content whose readable bytes begin with 89 50 4E 47 is
classified from content as image/png in category Image with isBinary true
(hence isText false and isImage true), independently of the extension of
the path, while the extension field of the returned classification is the
one derived from the original path. -/
theorem detectFromContent_png_overrides :
    ∀ (filePath : String) (rest : List Nat),
      (detectFromContent filePath (Except.ok (0x89 :: 0x50 :: 0x4E :: 0x47 :: rest))).mimeType
          = "image/png" ∧
      (detectFromContent filePath (Except.ok (0x89 :: 0x50 :: 0x4E :: 0x47 :: rest))).category
          = "Image" ∧
      (detectFromContent filePath (Except.ok (0x89 :: 0x50 :: 0x4E :: 0x47 :: rest))).isBinary
          = true ∧
      (detectFromContent filePath (Except.ok (0x89 :: 0x50 :: 0x4E :: 0x47 :: rest))).isText
          = false ∧
      (detectFromContent filePath (Except.ok (0x89 :: 0x50 :: 0x4E :: 0x47 :: rest))).isImage
          = true ∧
      (detectFromContent filePath (Except.ok (0x89 :: 0x50 :: 0x4E :: 0x47 :: rest))).extension
          = (detectFromPath filePath).extension := by
  intro filePath rest
  simp [detectFromContent, detectMagicNumbers_png]

/-- Claim C8, counterexample: a buffer of only 4 bytes, far shorter than
16, still matches a signature (the PNG signature). -/
theorem detectMagicNumbers_four_byte_png_matches :
    (([0x89, 0x50, 0x4E, 0x47] : List Nat).length < 16) ∧
    detectMagicNumbers [0x89, 0x50, 0x4E, 0x47] ≠ none := by decide

/-- Claim C8, amended: signature matching reads at most the first 16
bytes, and the cutoff below which a buffer is treated as unable to carry a
signature is 4 bytes, not 16: shorter buffers never match and leave the
extension-based classification unchanged. -/
theorem detectMagicNumbers_min_four :
    (∀ buffer : List Nat, buffer.length < 4 → detectMagicNumbers buffer = none) ∧
    (∀ buffer : List Nat, detectMagicNumbers (buffer.take 16) = detectMagicNumbers buffer) ∧
    (∀ filePath (buffer : List Nat), buffer.length < 4 →
      detectFromContent filePath (Except.ok buffer) = detectFromPath filePath) := by
  have h1 : ∀ buffer : List Nat, buffer.length < 4 → detectMagicNumbers buffer = none := by
    intro buffer h
    unfold detectMagicNumbers
    rw [if_pos h]
  refine ⟨h1, ?_, ?_⟩
  · intro buffer
    unfold detectMagicNumbers
    by_cases h : buffer.length < 4
    · rw [if_pos h, if_pos (by simp [List.length_take]; omega)]
    · rw [if_neg h, if_neg (by simp [List.length_take]; omega), List.take_take]
      simp
  · intro filePath buffer h
    simp [detectFromContent, h1 buffer h]

/-- Witness for the amended claim C8 on a 2-byte buffer. -/
theorem detectMagicNumbers_min_four_witness :
    detectMagicNumbers [0x1F, 0x8B] = none ∧
    detectFromContent "x.gz" (Except.ok [0x1F, 0x8B]) = detectFromPath "x.gz" :=
  ⟨detectMagicNumbers_min_four.1 [0x1F, 0x8B] (by decide),
   detectMagicNumbers_min_four.2.2 "x.gz" [0x1F, 0x8B] (by decide)⟩

/-- Claim C9: octal-to-symbolic and symbolic-to-octal permission
conversion are mutually inverse on their valid inputs: composing them in
either order returns the argument, for every anchored three-digit octal
string and every anchored nine-character rwx string. -/
theorem octal_symbolic_roundtrip :
    (∀ o : String, validOctalChars o.data = true →
      (octalToSymbolic o).bind symbolicToOctal = some o) ∧
    (∀ s : String, validSymbolicChars s.data = true →
      (symbolicToOctal s).bind octalToSymbolic = some s) := by
  have hoct := octal_roundtrip_enum
  simp only [List.all_eq_true, decide_eq_true_eq] at hoct
  have hsym := symbolic_roundtrip_enum
  simp only [List.all_eq_true, decide_eq_true_eq] at hsym
  constructor
  · intro o h
    obtain ⟨data⟩ := o
    rcases data with _ | ⟨c1, _ | ⟨c2, _ | ⟨c3, _ | ⟨c4, tl⟩⟩⟩⟩
    · exact (Bool.false_ne_true h).elim
    · exact (Bool.false_ne_true h).elim
    · exact (Bool.false_ne_true h).elim
    · have h3 : ((isOctalDigitChar c1 && isOctalDigitChar c2) && isOctalDigitChar c3) = true := h
      rw [Bool.and_eq_true, Bool.and_eq_true] at h3
      exact hoct c1 (isOctalDigitChar_mem h3.1.1) c2 (isOctalDigitChar_mem h3.1.2) c3
        (isOctalDigitChar_mem h3.2)
    · exact (Bool.false_ne_true h).elim
  · intro s h
    obtain ⟨data⟩ := s
    rcases data with _ | ⟨c1, _ | ⟨c2, _ | ⟨c3, _ | ⟨c4, _ | ⟨c5, _ | ⟨c6, _ | ⟨c7, _ |
      ⟨c8, _ | ⟨c9, _ | ⟨c10, tl⟩⟩⟩⟩⟩⟩⟩⟩⟩⟩
    · exact (Bool.false_ne_true h).elim
    · exact (Bool.false_ne_true h).elim
    · exact (Bool.false_ne_true h).elim
    · exact (Bool.false_ne_true h).elim
    · exact (Bool.false_ne_true h).elim
    · exact (Bool.false_ne_true h).elim
    · exact (Bool.false_ne_true h).elim
    · exact (Bool.false_ne_true h).elim
    · exact (Bool.false_ne_true h).elim
    · have h9 : ((c1 == 'r' || c1 == '-') && (c2 == 'w' || c2 == '-') && (c3 == 'x' || c3 == '-') &&
          (c4 == 'r' || c4 == '-') && (c5 == 'w' || c5 == '-') && (c6 == 'x' || c6 == '-') &&
          (c7 == 'r' || c7 == '-') && (c8 == 'w' || c8 == '-') && (c9 == 'x' || c9 == '-')) = true := h
      simp only [Bool.and_eq_true] at h9
      obtain ⟨⟨⟨⟨⟨⟨⟨⟨p1, p2⟩, p3⟩, p4⟩, p5⟩, p6⟩, p7⟩, p8⟩, p9⟩ := h9
      exact hsym c1 (mem_pair_of_or p1) c2 (mem_pair_of_or p2) c3 (mem_pair_of_or p3)
        c4 (mem_pair_of_or p4) c5 (mem_pair_of_or p5) c6 (mem_pair_of_or p6)
        c7 (mem_pair_of_or p7) c8 (mem_pair_of_or p8) c9 (mem_pair_of_or p9)
    · exact (Bool.false_ne_true h).elim

/-- Witness for claim C9 at 644 and rwxr-xr--. -/
theorem octal_symbolic_roundtrip_witness :
    (octalToSymbolic "644").bind symbolicToOctal = some "644" ∧
    (symbolicToOctal "rwxr-xr--").bind octalToSymbolic = some "rwxr-xr--" :=
  ⟨octal_symbolic_roundtrip.1 "644" (by decide),
   octal_symbolic_roundtrip.2 "rwxr-xr--" (by decide)⟩

/-- Claim C10: a readable zero-byte file is classified as not text (the
zero-by-zero ratio is NaN, which fails the below-0.3 test), the same
outcome as an unreadable file. -/
theorem isTextFile_empty_false :
    isTextFile (Except.ok []) = false ∧ ∀ e, isTextFile (Except.error e) = false :=
  ⟨rfl, fun _ => rfl⟩
